import Mathlib

/- Shallow embedding of the LEGO catalog scraper.
   Sources embedded here:
   - src/unnamed/part_001: the API-capture catalog scraper (interfaces
     ApiProduct and LegoProduct, parseApiProduct, the module-level
     capturedProducts map, setupApiInterception's insertion logic,
     scrollToLoadAllProducts, extractProductsFromDom, CATALOG handler).
   - src/lego-scraper/src/routes.ts: the enqueue variant
     (scrollToLoadAllProducts with a hard scroll ceiling, the CATALOG
     handler's diagnostics, the PRODUCT handler's price/sale logic).
   JavaScript strings are Lean Strings, numbers are Nat/Int/Rat as the
   site requires, undefined/null is Option, and JS truthiness of strings
   and numbers is modelled explicitly. -/

-- String and character constants (kept as named definitions).
def emptyS : String := ""

def dollarS : String := "$"

def dotS : String := "."

def minusS : String := "-"

def zeroDigitS : String := "0"

def httpS : String := "http"

def productPathS : String := "/product/"

def comingSoonKeyS : String := "coming_soon"

def availableS : String := "Available"

def outOfStockS : String := "Out of Stock"

def comingSoonS : String := "Coming Soon"

def legoBaseS : String := "https://www.lego.com"

def dollarC : Char := '$'

def commaC : Char := ','

def dotC : Char := '.'

def minusC : Char := '-'

def pctC : Char := '%'

def slashC : Char := '/'

def questionC : Char := '?'

-- JS `||` on possibly-undefined values, after truthiness filtering.
def jsOrOpt {α : Type} (a b : Option α) : Option α :=
  match a with
  | some x => some x
  | none => b

-- JS truthiness of a possibly-undefined string: '' and undefined are falsy.
def truthyStr (o : Option String) : Option String :=
  match o with
  | some s => if s = emptyS then none else some s
  | none => none

-- Data shapes from the ApiProduct interface of src/unnamed/part_001.
structure RatingInfo where
  averageRating : Option ℚ
  totalReviewCount : Option Nat
deriving DecidableEq

structure AttrInfo where
  pieceCount : Option Nat
  minifigureCount : Option Nat
  rating : Option RatingInfo
  featuredFlags : Option (List String)
  deliveryChannel : Option String
  canAddToBag : Option Bool
deriving DecidableEq

structure AvailInfo where
  canAddToBag : Option Bool
  deliveryChannel : Option String
  launchDate : Option String
deriving DecidableEq

structure PriceInfo where
  formattedAmount : Option String
  formattedValue : Option String
  centAmount : Option Int
deriving DecidableEq

structure ListPriceInfo where
  formattedAmount : Option String
  formattedValue : Option String
deriving DecidableEq

inductive ImageRef where
  | str (s : String)
  | obj (url : Option String)
deriving DecidableEq

structure ImageInfo where
  url : Option String
deriving DecidableEq

structure VariantInfo where
  id : Option String
  attributes : Option AttrInfo
deriving DecidableEq

structure ThemeInfo where
  name : Option String
deriving DecidableEq

structure BadgeInfo where
  text : Option String
deriving DecidableEq

structure ApiProduct where
  id : Option String
  productCode : Option String
  name : Option String
  slug : Option String
  baseImgUrl : Option String
  primaryImage : Option ImageRef
  image : Option ImageInfo
  overrideUrl : Option String
  price : Option PriceInfo
  listPrice : Option ListPriceInfo
  variant : Option VariantInfo
  attributes : Option AttrInfo
  availability : Option AvailInfo
  themes : Option (List ThemeInfo)
  badges : Option (List BadgeInfo)
  flags : Option (List BadgeInfo)
deriving DecidableEq

-- The LegoProduct record shape of src/unnamed/part_001 (lines 7-22).
structure LegoProduct where
  setNumber : String
  name : String
  theme : String
  pieces : Option Nat
  minifigures : Option Nat
  rating : Option ℚ
  reviewCount : Option Nat
  price : Option String
  originalPrice : Option String
  availability : String
  tags : List String
  imageUrl : String
  productUrl : String
  scrapedAt : String
deriving DecidableEq

-- An ApiProduct with every field absent, for building concrete inputs.
def emptyApi : ApiProduct :=
  ⟨none, none, none, none, none, none, none, none, none, none, none, none,
   none, none, none, none⟩

def emptyAttrs : AttrInfo := ⟨none, none, none, none, none, none⟩

-- `apiProduct.productCode || apiProduct.id || ''` (part_001 line 77; the
-- same expression keys the capture store at line 228).
def jsIdOf (p : ApiProduct) : String :=
  (jsOrOpt (truthyStr p.productCode) (truthyStr p.id)).getD emptyS

-- part_001 lines 83-92: the image resolution chain.
def imageFallback (p : ApiProduct) : String :=
  match truthyStr p.baseImgUrl with
  | some b => b
  | none =>
    match p.image with
    | some im => (truthyStr im.url).getD emptyS
    | none => emptyS

def imageUrlOf (p : ApiProduct) : String :=
  match p.primaryImage with
  | some (ImageRef.str s) => s
  | some (ImageRef.obj u) =>
    match truthyStr u with
    | some v => v
    | none => imageFallback p
  | none => imageFallback p

-- `(centAmount / 100).toFixed(2)` for an integer number of cents.
def pad2 (n : Nat) : String :=
  if n < 10 then zeroDigitS ++ toString n else toString n

def centAmountFmt (c : Int) : String :=
  let a := c.natAbs
  (if c < 0 then minusS else emptyS) ++ toString (a / 100) ++ dotS ++ pad2 (a % 100)

-- part_001 lines 95-97: formattedAmount || formattedValue ||
-- (centAmount ? `$...` : null); centAmount 0 is falsy in JS.
def priceOf (p : ApiProduct) : Option String :=
  match p.price with
  | none => none
  | some pr =>
    match truthyStr pr.formattedAmount with
    | some s => some s
    | none =>
      match truthyStr pr.formattedValue with
      | some s => some s
      | none =>
        match pr.centAmount with
        | some c => if c ≠ 0 then some (dollarS ++ centAmountFmt c) else none
        | none => none

-- part_001 lines 99-100.
def originalPriceOf (p : ApiProduct) : Option String :=
  match p.listPrice with
  | none => none
  | some lp => jsOrOpt (truthyStr lp.formattedAmount) (truthyStr lp.formattedValue)

-- part_001 line 103: variant?.attributes || attributes || {}.
def attrsOf (p : ApiProduct) : AttrInfo :=
  match p.variant.bind (fun v => v.attributes) with
  | some a => a
  | none => p.attributes.getD emptyAttrs

-- part_001 lines 110-128.
def availabilityOf (p : ApiProduct) : String :=
  match p.availability with
  | some av =>
    let a1 := if av.canAddToBag = some false then outOfStockS else availableS
    if av.deliveryChannel = some comingSoonKeyS ∨ (truthyStr av.launchDate).isSome
    then comingSoonS else a1
  | none =>
    match p.variant.bind (fun v => v.attributes) with
    | some va =>
      let a1 := if va.canAddToBag = some false then outOfStockS else availableS
      if va.deliveryChannel = some comingSoonKeyS then comingSoonS else a1
    | none => availableS

-- part_001 lines 130-144: featuredFlags, then truthy badge texts, then
-- truthy flag texts.
def tagsOf (p : ApiProduct) (attrs : AttrInfo) : List String :=
  let base := attrs.featuredFlags.getD []
  let btags := (p.badges.getD []).filterMap (fun b => truthyStr b.text)
  let ftags := (p.flags.getD []).filterMap (fun f => truthyStr f.text)
  base ++ btags ++ ftags

-- part_001 lines 146-150.
def themeOf (p : ApiProduct) : String :=
  match p.themes with
  | some (t :: _) => (truthyStr t.name).getD emptyS
  | _ => emptyS

-- `[...new Set(tags)]`: JS Set preserves first-occurrence order.
def jsSetDedup (l : List String) : List String :=
  l.foldl (fun acc s => if acc.contains s then acc else acc ++ [s]) []

-- List-of-characters string search used to model JS String.startsWith
-- and String.includes.
def leadsWith : List Char → List Char → Bool
  | [], _ => true
  | _ :: _, [] => false
  | a :: as, b :: bs => a == b && leadsWith as bs

def containsSub (pat : List Char) : List Char → Bool
  | [] => leadsWith pat []
  | c :: rest => leadsWith pat (c :: rest) || containsSub pat rest

def jsStartsWith (s pre2 : String) : Bool := leadsWith pre2.toList s.toList

def jsIncludes (s sub : String) : Bool := containsSub sub.toList s.toList

-- part_001 lines 75-176: parseApiProduct.  `now` stands for the
-- `new Date().toISOString()` value taken at the call.
def parseApiProduct (p : ApiProduct) (baseUrl now : String) : Option LegoProduct :=
  let setNumber := jsIdOf p
  if setNumber = emptyS then none
  else
    let nm := (truthyStr p.name).getD emptyS
    let attrs := attrsOf p
    let slug := (jsOrOpt (truthyStr p.slug)
      (jsOrOpt (truthyStr p.overrideUrl) (some setNumber))).getD emptyS
    let productUrl := if jsStartsWith slug httpS then slug
      else baseUrl ++ productPathS ++ slug
    some
      { setNumber := setNumber
        name := nm
        theme := themeOf p
        pieces := attrs.pieceCount
        minifigures := attrs.minifigureCount
        rating := attrs.rating.bind (fun r => r.averageRating)
        reviewCount := attrs.rating.bind (fun r => r.totalReviewCount)
        price := priceOf p
        originalPrice := originalPriceOf p
        availability := availabilityOf p
        tags := jsSetDedup (tagsOf p attrs)
        imageUrl := imageUrlOf p
        productUrl := productUrl
        scrapedAt := now }

-- The capture store (part_001 line 72): a JS Map keyed by product id,
-- modelled as an association list in insertion order.
def storeLookup (k : String) : List (String × ApiProduct) → Option ApiProduct
  | [] => none
  | (k2, v) :: rest => if k2 = k then some v else storeLookup k rest

-- part_001 lines 227-233: insert only when the key is truthy and not
-- already present (first-seen-wins).
def insertCaptured (store : List (String × ApiProduct)) (p : ApiProduct) :
    List (String × ApiProduct) :=
  let key := jsIdOf p
  if key ≠ emptyS ∧ storeLookup key store = none then store ++ [(key, p)] else store

-- The store left behind by one page visit's response callbacks.  The map
-- is module-level (a `const` at file scope) and the CATALOG handler never
-- clears it, so the next visit starts from exactly this value.
def visitCaptures (store : List (String × ApiProduct)) (responses : List ApiProduct) :
    List (String × ApiProduct) :=
  responses.foldl insertCaptured store

-- part_001 lines 247-299: scrollToLoadAllProducts.  `counts i` is the
-- observed product count (max of DOM count and store size) read in
-- iteration i; the loop stalls out after 5 unchanged readings and has no
-- other ceiling.  The fuel argument lets the loop be a total function:
-- `some n` means the loop exited normally after n iterations, `none`
-- means it was still running when the fuel ran out.
def scrollLoop1 (counts : Nat → Nat) (maxProducts : Nat) :
    Nat → Nat → Nat → Nat → Option Nat
  | 0, _, same, iter => if 5 ≤ same then some iter else none
  | f + 1, prev, same, iter =>
    if 5 ≤ same then some iter
    else
      let c := counts iter
      if 0 < maxProducts ∧ maxProducts ≤ c then some (iter + 1)
      else scrollLoop1 counts maxProducts f c
        (if c = prev then same + 1 else 0) (iter + 1)

-- The part_001 controller terminates on a given count stream when some
-- amount of fuel suffices for the loop to exit on its own.
def scrollTerminates (counts : Nat → Nat) (maxProducts : Nat) : Prop :=
  ∃ fuel r, scrollLoop1 counts maxProducts fuel 0 0 0 = some r

-- A count stream that keeps increasing forever.
def strictStream : Nat → Nat := fun i => i + 1

-- A count stream stuck at 10, as in the spec's stall scenario.
def tenStream : Nat → Nat := fun _ => 10

-- routes.ts lines 28-84: the enqueue variant's controller.  It counts
-- every pass in totalScrolls and exits at 500 regardless; `clicks i`
-- records whether a load-more button was activated in iteration i (a
-- click resets the stall counter).
def scrollLoop2 (counts : Nat → Nat) (clicks : Nat → Bool) (maxProducts : Nat) :
    Nat → Nat → Nat → Nat → Option Nat
  | 0, _, same, total => if 10 ≤ same ∨ 500 ≤ total then some total else none
  | f + 1, prev, same, total =>
    if 10 ≤ same ∨ 500 ≤ total then some total
    else
      let c := counts total
      if 0 < maxProducts ∧ maxProducts ≤ c then some (total + 1)
      else scrollLoop2 counts clicks maxProducts f c
        (if clicks total then 0 else if c = prev then same + 1 else 0) (total + 1)

-- Character class [\d,.] of the price regexes.
def isPriceChar (c : Char) : Bool := c.isDigit || c == commaC || c == dotC

def priceStart : List Char → Bool
  | [] => false
  | c :: _ => isPriceChar c

-- First match of /\$[\d,.]+/ in a string (routes.ts lines 174/179,
-- part_001 line 366).
def matchDollarNumAux : List Char → Option String
  | [] => none
  | c :: rest =>
    if c == dollarC && priceStart rest then
      some (String.mk (c :: rest.takeWhile isPriceChar))
    else matchDollarNumAux rest

def matchDollarNum (s : String) : Option String := matchDollarNumAux s.toList

-- All matches of /\$[\d,.]+/g (routes.ts line 183); scanning resumes
-- after each match, as the JS global regex does.
def matchAllDollarNumsAux : List Char → List String
  | [] => []
  | c :: rest =>
    if c == dollarC && priceStart rest then
      String.mk (c :: rest.takeWhile isPriceChar) ::
        matchAllDollarNumsAux (rest.drop (rest.takeWhile isPriceChar).length)
    else matchAllDollarNumsAux rest
termination_by l => l.length
decreasing_by
  · simp only [List.length_drop, List.length_cons]
    omega
  · simp only [List.length_cons]
    omega

def matchAllDollarNums (s : String) : List String := matchAllDollarNumsAux s.toList

-- Capture group of /(\d+)/ and /(\d+)%?/: the first maximal digit run.
def firstDigitRunAux : List Char → Option String
  | [] => none
  | c :: rest =>
    if c.isDigit then some (String.mk (c :: rest.takeWhile Char.isDigit))
    else firstDigitRunAux rest

def firstDigitRun (s : String) : Option String := firstDigitRunAux s.toList

-- Capture group of /-(\d+)%/ (routes.ts line 187).
def matchMinusPctAux : List Char → Option String
  | [] => none
  | c :: rest =>
    if c == minusC then
      let run := rest.takeWhile Char.isDigit
      if 0 < run.length &&
          (match rest.drop run.length with
           | a :: _ => a == pctC
           | [] => false) then
        some (String.mk run)
      else matchMinusPctAux rest
    else matchMinusPctAux rest

def matchMinusDigitsPercent (s : String) : Option String := matchMinusPctAux s.toList

-- parseInt(digits, 10) for a nonempty digit run.
def digitsToNat (cs : List Char) : Nat :=
  cs.foldl (fun a c => a * 10 + (c.toNat - 48)) 0

-- parseFloat on a string of digits and dots (what is left of a price
-- token after `.replace(/[$,]/g, '')`): NaN is modelled as none.
def parseFloatQ (cs : List Char) : Option ℚ :=
  let d1 := cs.takeWhile Char.isDigit
  let rest := cs.drop d1.length
  match rest with
  | c :: rest2 =>
    if c == dotC then
      let d2 := rest2.takeWhile Char.isDigit
      if d1.isEmpty && d2.isEmpty then none
      else some (mkRat (digitsToNat d1 * 10 ^ d2.length + digitsToNat d2) (10 ^ d2.length))
    else if d1.isEmpty then none else some (mkRat (digitsToNat d1) 1)
  | [] => if d1.isEmpty then none else some (mkRat (digitsToNat d1) 1)

-- parseFloat(tok.replace(/[$,]/g, '')).
def parsePriceNum (s : String) : Option ℚ :=
  parseFloatQ (s.toList.filter (fun c => !(c == dollarC || c == commaC)))

-- A JS `<` comparison that is false when either side is NaN.
def jsLtQ (a b : Option ℚ) : Bool :=
  match a, b with
  | some x, some y => decide (x < y)
  | _, _ => false

-- Digit-run match with a required anchor character before the run, a
-- length window for the run, and a required follower (or end of string)
-- after it.  This is exactly how the backtracking regexes
-- /-(\d{4,6})(?:\?|$)/ and /\/(\d{5,6})(?:\?|$|\/)/ behave: at an anchor
-- the greedy \d{lo,hi} can only succeed when the whole digit run fits the
-- window and is followed by an allowed char or the end (shortening the
-- run always leaves a digit as the next char, never a valid follower).
def scanAnchoredDigits (anchor : Char) (lo hi : Nat) (followers : List Char) :
    List Char → Option String
  | [] => none
  | c :: rest =>
    if c == anchor then
      let run := rest.takeWhile Char.isDigit
      if lo ≤ run.length && run.length ≤ hi &&
          (match rest.drop run.length with
           | [] => true
           | a :: _ => followers.contains a) then
        some (String.mk run)
      else scanAnchoredDigits anchor lo hi followers rest
    else scanAnchoredDigits anchor lo hi followers rest

-- part_001 lines 350-351.
def slugMatch (link : String) : Option String :=
  scanAnchoredDigits minusC 4 6 [questionC] link.toList

def pathMatch (link : String) : Option String :=
  scanAnchoredDigits slashC 5 6 [questionC, slashC] link.toList

-- The per-card signals the DOM extractor reads from one rendered product
-- card (part_001 lines 334-371): the first link's href, the first
-- heading's text, the first image's src, the first price element's text,
-- and the first pieces element's text (each '' when the lookup failed).
structure DomCard where
  link : String
  nameText : String
  imgSrc : String
  priceText : String
  piecesText : String
deriving DecidableEq

-- part_001 lines 334-396: one iteration of the DOM extraction loop.
-- `continue`/no-push is none.
def extractDomProduct (now : String) (card : DomCard) : Option LegoProduct :=
  let link := card.link
  if jsIncludes link productPathS = false then none
  else
    let setNumber :=
      match slugMatch link with
      | some d => d
      | none => (pathMatch link).getD emptyS
    let nm := card.nameText
    let price := matchDollarNum card.priceText
    let pieces := (firstDigitRun card.piecesText).map (fun d => digitsToNat d.toList)
    let productUrl := if jsStartsWith link httpS then link else legoBaseS ++ link
    if nm ≠ emptyS ∨ setNumber ≠ emptyS then
      some
        { setNumber := setNumber
          name := nm.trim
          theme := emptyS
          pieces := pieces
          minifigures := none
          rating := none
          reviewCount := none
          price := price
          originalPrice := none
          availability := availableS
          tags := []
          imageUrl := card.imgSrc
          productUrl := productUrl
          scrapedAt := now }
    else none

-- part_001 lines 302-399: iterate the first min(maxProducts, count)
-- cards (all of them when maxProducts = 0).
def extractProductsFromDom (now : String) (cards : List DomCard) (maxProducts : Nat) :
    List LegoProduct :=
  let limit := if 0 < maxProducts then min maxProducts cards.length else cards.length
  (cards.take limit).filterMap (extractDomProduct now)

-- part_001 lines 432-441: convert stored captures, stopping once the
-- maxProducts limit is reached.
def apiParseLoop (baseUrl now : String) (maxProducts : Nat) :
    List LegoProduct → List ApiProduct → List LegoProduct
  | acc, [] => acc
  | acc, v :: rest =>
    let acc2 :=
      match parseApiProduct v baseUrl now with
      | some rec => acc ++ [rec]
      | none => acc
    if 0 < maxProducts ∧ maxProducts ≤ acc2.length then acc2
    else apiParseLoop baseUrl now maxProducts acc2 rest

-- part_001 lines 425-448: the CATALOG handler's extraction decision.
-- The Bool records whether the DOM fallback path ran.
def catalogProducts (baseUrl now : String) (maxProducts : Nat)
    (store : List (String × ApiProduct)) (cards : List DomCard) :
    List LegoProduct × Bool :=
  let apiProducts :=
    if 0 < store.length then
      apiParseLoop baseUrl now maxProducts [] (store.map Prod.snd)
    else []
  if apiProducts.length = 0 then (extractProductsFromDom now cards maxProducts, true)
  else (apiProducts, false)

-- part_001 lines 452-464: the visit's side effects on the key-value
-- store (diagnostics) and the dataset (records).
structure CatalogEffects where
  screenshots : Nat
  htmlBlobs : Nat
  pushed : List LegoProduct
deriving DecidableEq

def catalogEffects (products : List LegoProduct) : CatalogEffects :=
  if products.length = 0 then ⟨1, 1, []⟩ else ⟨0, 0, products⟩

-- routes.ts lines 87-131: the enqueue variant's CATALOG handler effects.
-- When the product selector never appears it saves one screenshot (no
-- HTML) and returns; otherwise it enqueues the collected URLs.
structure CatalogEffectsV2 where
  screenshots : Nat
  htmlBlobs : Nat
  enqueued : List String
deriving DecidableEq

def catalogVisitV2 (selectorAppeared : Bool) (productUrls : List String) :
    CatalogEffectsV2 :=
  if selectorAppeared then ⟨0, 0, productUrls⟩ else ⟨1, 0, []⟩

-- routes.ts lines 166-228: price/sale extraction on a product page.
-- The canonical record fields it fills.
structure PriceFields where
  retailPrice : Option String
  salePrice : Option String
  isOnSale : Bool
  discountPercentage : Option Int
deriving DecidableEq

-- JS truthiness of a string held in a nullable variable.
def optTruthyStr : Option String → Bool
  | some s => !(s == emptyS)
  | none => false

-- routes.ts lines 210-216: the two trailing branches of the price chain
-- (dedicated sale-price element only, or a single price in the main
-- display).
def stageRest (origM saleM : Option String) (allPrices : List String) :
    Option String × Option String × Bool :=
  match saleM with
  | some s => (origM, some s, origM.isSome)
  | none =>
    match allPrices with
    | [a] => if a ≠ emptyS then (some a, none, false) else (none, none, false)
    | _ => (none, none, false)

-- routes.ts lines 194-209: two prices in the main price display.
def stageTwoPrices (a b : String) : Option String × Option String × Bool :=
  let p1 := parsePriceNum a
  let p2 := parsePriceNum b
  if jsLtQ p1 p2 then (some b, some a, true)
  else if jsLtQ p2 p1 then (some a, some b, true)
  else (some a, none, false)

-- routes.ts lines 189-216: the full if/else-if chain assigning
-- (retailPrice, salePrice, isOnSale).
def stage1 (origM saleM : Option String) (allPrices : List String) :
    Option String × Option String × Bool :=
  if origM.isSome ∧ saleM.isSome then (origM, saleM, true)
  else
    match allPrices with
    | a :: b :: _ =>
      if a ≠ emptyS ∧ b ≠ emptyS then stageTwoPrices a b
      else stageRest origM saleM allPrices
    | _ => stageRest origM saleM allPrices

-- routes.ts lines 218-228: discount percentage, or the discount-marker
-- fallback which may switch isOnSale on.
def discountStage (retail0 sale0 : Option String) (onSale0 : Bool)
    (discountM : Option String) : PriceFields :=
  if onSale0 && optTruthyStr retail0 && optTruthyStr sale0 then
    match parsePriceNum (retail0.getD emptyS), parsePriceNum (sale0.getD emptyS) with
    | some r, some s =>
      if 0 < r ∧ s < r then
        ⟨retail0, sale0, onSale0, some (round ((r - s) / r * 100))⟩
      else ⟨retail0, sale0, onSale0, none⟩
    | _, _ => ⟨retail0, sale0, onSale0, none⟩
  else
    match discountM with
    | some d =>
      ⟨retail0, sale0, decide (0 < digitsToNat d.toList),
       some (Int.ofNat (digitsToNat d.toList))⟩
    | none => ⟨retail0, sale0, onSale0, none⟩

-- routes.ts lines 172-228 end to end, starting from the four text
-- signals read off the page: the sale-price element's text, the
-- original-price element's text, the main price display's text, and the
-- discount element's text.
def computePriceFields (saleText origText mainText discountText : String) :
    PriceFields :=
  let salePriceMatch := matchDollarNum saleText
  let originalPriceMatch := matchDollarNum origText
  let allPrices := matchAllDollarNums mainText
  let discountMatch :=
    jsOrOpt (firstDigitRun discountText) (matchMinusDigitsPercent mainText)
  let st := stage1 originalPriceMatch salePriceMatch allPrices
  discountStage st.1 st.2.1 st.2.2 discountMatch

-- A JSON-ish value type for stating which keys the emitted record
-- carries (the object literal at part_001 lines 156-171).
inductive JVal where
  | s (v : String)
  | n (v : ℚ)
  | b (v : Bool)
  | null
  | arr (v : List String)
deriving DecidableEq

def optNatJ : Option Nat → JVal
  | some n => JVal.n n
  | none => JVal.null

def optQJ : Option ℚ → JVal
  | some q => JVal.n q
  | none => JVal.null

def optStrJ : Option String → JVal
  | some s => JVal.s s
  | none => JVal.null

-- Keys of the emitted object, in literal order.
def setNumberK : String := "setNumber"

def nameK : String := "name"

def themeK : String := "theme"

def piecesK : String := "pieces"

def minifiguresK : String := "minifigures"

def ratingK : String := "rating"

def reviewCountK : String := "reviewCount"

def priceK : String := "price"

def originalPriceK : String := "originalPrice"

def availabilityK : String := "availability"

def tagsK : String := "tags"

def imageUrlK : String := "imageUrl"

def productUrlK : String := "productUrl"

def scrapedAtK : String := "scrapedAt"

def isOnSaleK : String := "isOnSale"

def discountPercentageK : String := "discountPercentage"

-- The exact key set of the record object parseApiProduct builds and
-- Dataset.pushData serialises (part_001 lines 156-171).
def legoProductJson (p : LegoProduct) : List (String × JVal) :=
  [(setNumberK, JVal.s p.setNumber),
   (nameK, JVal.s p.name),
   (themeK, JVal.s p.theme),
   (piecesK, optNatJ p.pieces),
   (minifiguresK, optNatJ p.minifigures),
   (ratingK, optQJ p.rating),
   (reviewCountK, optNatJ p.reviewCount),
   (priceK, optStrJ p.price),
   (originalPriceK, optStrJ p.originalPrice),
   (availabilityK, JVal.s p.availability),
   (tagsK, JVal.arr p.tags),
   (imageUrlK, JVal.s p.imageUrl),
   (productUrlK, JVal.s p.productUrl),
   (scrapedAtK, JVal.s p.scrapedAt)]

-- Concrete inputs used by the claim checks.
def nowS : String := "2025-01-01T00:00:00.000Z"

def code10300S : String := "10300"

def code99999S : String := "99999"

def retail329S : String := "$329.99"

def sale249S : String := "$249.99"

def ten00S : String := "$10.00"

def zeroDollarS : String := "$0.00"

-- The spec scenario's raw capture:
-- productCode "10300", price.centAmount 24999, listPrice "$329.99".
def c1Input : ApiProduct :=
  { emptyApi with
    productCode := some code10300S
    price := some ⟨none, none, some 24999⟩
    listPrice := some ⟨some retail329S, none⟩ }

-- The field the emitted record carries under key k for the scenario
-- input, none when parsing fails or the key is absent from the record.
def jfieldC1 (k : String) : Option JVal :=
  (parseApiProduct c1Input legoBaseS nowS).bind
    (fun rec => (legoProductJson rec).lookup k)

-- Claim C1 as stated: the normalizer output carries retail "$329.99",
-- sale "$249.99", isOnSale = true and discountPercentage = 24.
def claimC1 : Prop :=
  jfieldC1 originalPriceK = some (JVal.s retail329S) ∧
  jfieldC1 priceK = some (JVal.s sale249S) ∧
  jfieldC1 isOnSaleK = some (JVal.b true) ∧
  jfieldC1 discountPercentageK = some (JVal.n 24)

-- A raw capture whose only price signal is centAmount 0.
def zeroCentProduct : ApiProduct :=
  { emptyApi with
    productCode := some code10300S
    price := some ⟨none, none, some 0⟩ }

-- Claim C6 at centAmount 0: the price string should be "$0.00".
def claimC6atZero : Prop :=
  (parseApiProduct zeroCentProduct legoBaseS nowS).map LegoProduct.price =
    some (some zeroDollarS)

-- Claim C5's per-record invariant: isOnSale holds exactly when a
-- discount percentage was recorded or the sale price parses strictly
-- below the retail price.
def saleIffStrictlyLower (f : PriceFields) : Prop :=
  f.isOnSale = true ↔
    (f.discountPercentage.isSome ∨
      ∃ r s, f.retailPrice = some r ∧ f.salePrice = some s ∧
        jsLtQ (parsePriceNum s) (parsePriceNum r) = true)

-- Claim C8 on the enqueue variant's selector-timeout path: exactly one
-- screenshot, exactly one markup blob, nothing emitted.
def claimC8timeout : Prop :=
  (catalogVisitV2 false []).screenshots = 1 ∧
  (catalogVisitV2 false []).htmlBlobs = 1 ∧
  (catalogVisitV2 false []).enqueued = []

-- A raw capture with productCode "10300" only (used for the capture
-- store facts).
def p10300 : ApiProduct := { emptyApi with productCode := some code10300S }

-- A different raw capture that carries the same identifier "10300"
-- through its generic id field.
def p10300b : ApiProduct :=
  { emptyApi with id := some code10300S, baseImgUrl := some legoBaseS }

-- A raw capture with productCode "99999".
def p99999 : ApiProduct := { emptyApi with productCode := some code99999S }

-- The record parseApiProduct produces for p10300.
def rec10300 : LegoProduct :=
  { setNumber := code10300S
    name := emptyS
    theme := emptyS
    pieces := none
    minifigures := none
    rating := none
    reviewCount := none
    price := none
    originalPrice := none
    availability := availableS
    tags := []
    imageUrl := emptyS
    productUrl := legoBaseS ++ productPathS ++ code10300S
    scrapedAt := nowS }

-- Facts about truthiness and identifiers shared by several claims.
theorem truthyStr_ne_empty {o : Option String} {s : String}
    (h : truthyStr o = some s) : s ≠ emptyS := by
  cases o with
  | none => simp [truthyStr] at h
  | some t =>
    simp only [truthyStr] at h
    split at h
    · exact absurd h (by simp)
    · next ht =>
      injection h with h2
      exact h2 ▸ ht

theorem jsIdOf_eq_empty_iff (p : ApiProduct) :
    jsIdOf p = emptyS ↔ truthyStr p.productCode = none ∧ truthyStr p.id = none := by
  cases hpc : truthyStr p.productCode with
  | some s => simp [jsIdOf, jsOrOpt, hpc, truthyStr_ne_empty hpc]
  | none =>
    cases hid : truthyStr p.id with
    | some s => simp [jsIdOf, jsOrOpt, hpc, hid, truthyStr_ne_empty hid]
    | none => simp [jsIdOf, jsOrOpt, hpc, hid]

theorem parseApiProduct_eq_none_iff (p : ApiProduct) (baseUrl now : String) :
    parseApiProduct p baseUrl now = none ↔ jsIdOf p = emptyS := by
  by_cases h : jsIdOf p = emptyS <;> simp [parseApiProduct, h]

theorem parseApiProduct_some_setNumber {p : ApiProduct} {baseUrl now : String}
    {rec : LegoProduct} (h : parseApiProduct p baseUrl now = some rec) :
    rec.setNumber = jsIdOf p ∧ rec.setNumber ≠ emptyS := by
  by_cases he : jsIdOf p = emptyS
  · simp [parseApiProduct, he] at h
  · simp only [parseApiProduct] at h
    rw [if_neg he] at h
    injection h with h2
    rw [← h2]
    exact ⟨rfl, he⟩

theorem storeLookup_eq_none_iff (k : String) (s : List (String × ApiProduct)) :
    storeLookup k s = none ↔ ∀ kv ∈ s, kv.1 ≠ k := by
  induction s with
  | nil => simp [storeLookup]
  | cons kv rest ih =>
    obtain ⟨k2, v⟩ := kv
    by_cases h : k2 = k <;> simp [storeLookup, h, ih]

-- Facts about the capture-to-record conversion loop of the CATALOG
-- handler.
theorem apiParseLoop_length_mono (baseUrl now : String) (m : Nat) :
    ∀ (l : List ApiProduct) (acc : List LegoProduct),
      acc.length ≤ (apiParseLoop baseUrl now m acc l).length := by
  intro l
  induction l with
  | nil => intro acc; simp [apiParseLoop]
  | cons v rest ih =>
    intro acc
    simp only [apiParseLoop]
    cases hp : parseApiProduct v baseUrl now with
    | some rec =>
      split
      · simp
      · calc acc.length ≤ (acc ++ [rec]).length := by simp
          _ ≤ _ := ih (acc ++ [rec])
    | none =>
      split
      · exact le_refl _
      · exact ih acc

theorem apiParseLoop_length_le (baseUrl now : String) (m : Nat) (hm : 0 < m) :
    ∀ (l : List ApiProduct) (acc : List LegoProduct), acc.length < m →
      (apiParseLoop baseUrl now m acc l).length ≤ m := by
  intro l
  induction l with
  | nil => intro acc h; simpa [apiParseLoop] using Nat.le_of_lt h
  | cons v rest ih =>
    intro acc h
    simp only [apiParseLoop]
    cases hp : parseApiProduct v baseUrl now with
    | some rec =>
      split
      · simpa using h
      · next hcond =>
        refine ih (acc ++ [rec]) ?_
        rcases Nat.lt_or_ge (acc ++ [rec]).length m with h2 | h2
        · exact h2
        · exact absurd ⟨hm, h2⟩ hcond
    | none =>
      split
      · exact Nat.le_of_lt h
      · exact ih acc h

theorem apiParseLoop_mem (baseUrl now : String) (m : Nat) :
    ∀ (l : List ApiProduct) (acc : List LegoProduct) (rec : LegoProduct),
      rec ∈ apiParseLoop baseUrl now m acc l →
      rec ∈ acc ∨ ∃ v ∈ l, parseApiProduct v baseUrl now = some rec := by
  intro l
  induction l with
  | nil => intro acc rec h; exact Or.inl (by simpa [apiParseLoop] using h)
  | cons v rest ih =>
    intro acc rec h
    simp only [apiParseLoop] at h
    cases hp : parseApiProduct v baseUrl now with
    | some q =>
      rw [hp] at h
      have hsplit : rec ∈ acc ++ [q] ∨
          (rec ∈ acc ++ [q] ∨ ∃ w ∈ rest, parseApiProduct w baseUrl now = some rec) := by
        split at h
        · exact Or.inl h
        · exact Or.inr (ih (acc ++ [q]) rec h)
      have hstep : rec ∈ acc ++ [q] →
          rec ∈ acc ∨ ∃ w ∈ v :: rest, parseApiProduct w baseUrl now = some rec := by
        intro hmem
        rcases List.mem_append.mp hmem with h1 | h1
        · exact Or.inl h1
        · refine Or.inr ⟨v, by simp, ?_⟩
          rw [hp]
          simpa using (List.mem_singleton.mp h1) ▸ rfl
      rcases hsplit with h1 | h1
      · exact hstep h1
      · rcases h1 with h1 | ⟨w, hw, hww⟩
        · exact hstep h1
        · exact Or.inr ⟨w, by simp [hw], hww⟩
    | none =>
      rw [hp] at h
      have : rec ∈ acc ∨ (rec ∈ acc ∨ ∃ w ∈ rest, parseApiProduct w baseUrl now = some rec) := by
        split at h
        · exact Or.inl h
        · exact Or.inr (ih acc rec h)
      rcases this with h1 | h1
      · exact Or.inl h1
      · rcases h1 with h1 | ⟨w, hw, hww⟩
        · exact Or.inl h1
        · exact Or.inr ⟨w, by simp [hw], hww⟩

theorem apiParseLoop_pos (baseUrl now : String) (m : Nat) (v : ApiProduct)
    (l : List ApiProduct) (rec : LegoProduct)
    (h : parseApiProduct v baseUrl now = some rec) :
    0 < (apiParseLoop baseUrl now m [] (v :: l)).length := by
  simp only [apiParseLoop, h]
  split
  · simp
  · calc 0 < ([rec] : List LegoProduct).length := by simp
      _ ≤ _ := by simpa using apiParseLoop_length_mono baseUrl now m l [rec]

-- The part_001 controller runs forever on a strictly increasing count
-- stream with no product cap: the stall counter is reset every
-- iteration and no other exit exists.
theorem scrollLoop1_strict_none :
    ∀ (fuel iter prev : Nat), prev ≤ iter →
      scrollLoop1 strictStream 0 fuel prev 0 iter = none := by
  intro fuel
  induction fuel with
  | zero => intro iter prev _; simp [scrollLoop1]
  | succ f ih =>
    intro iter prev h
    simp only [scrollLoop1]
    rw [if_neg (by omega)]
    rw [if_neg (by simp)]
    have hne : ¬ strictStream iter = prev := by simp [strictStream]; omega
    rw [if_neg hne]
    exact ih (iter + 1) (strictStream iter) (by simp [strictStream])

-- The routes.ts controller always exits within its hard scroll ceiling.
theorem scrollLoop2_isSome (counts : Nat → Nat) (clicks : Nat → Bool) (m : Nat) :
    ∀ (fuel prev same total : Nat), 500 ≤ total + fuel →
      (scrollLoop2 counts clicks m fuel prev same total).isSome = true := by
  intro fuel
  induction fuel with
  | zero =>
    intro prev same total h
    simp only [scrollLoop2]
    rw [if_pos (Or.inr (by omega))]
    rfl
  | succ f ih =>
    intro prev same total h
    simp only [scrollLoop2]
    by_cases hg : 10 ≤ same ∨ 500 ≤ total
    · rw [if_pos hg]; rfl
    · rw [if_neg hg]
      by_cases hb : 0 < m ∧ m ≤ counts total
      · rw [if_pos hb]; rfl
      · rw [if_neg hb]
        exact ih _ _ (total + 1) (by omega)

theorem scrollLoop2_le (counts : Nat → Nat) (clicks : Nat → Bool) (m : Nat) :
    ∀ (fuel prev same total r : Nat), total ≤ 500 →
      scrollLoop2 counts clicks m fuel prev same total = some r → r ≤ 500 := by
  intro fuel
  induction fuel with
  | zero =>
    intro prev same total r ht h
    simp only [scrollLoop2] at h
    split at h
    · injection h with h2; omega
    · cases h
  | succ f ih =>
    intro prev same total r ht h
    simp only [scrollLoop2] at h
    by_cases hg : 10 ≤ same ∨ 500 ≤ total
    · rw [if_pos hg] at h
      injection h with h2; omega
    · rw [if_neg hg] at h
      push_neg at hg
      by_cases hb : 0 < m ∧ m ≤ counts total
      · rw [if_pos hb] at h
        injection h with h2; omega
      · rw [if_neg hb] at h
        exact ih _ _ (total + 1) r (by omega) h

-- A matched price token always starts with the dollar sign, hence is a
-- truthy (nonempty) string.
theorem matchDollarNumAux_ne_empty :
    ∀ (cs : List Char) (s : String), matchDollarNumAux cs = some s → s ≠ emptyS := by
  intro cs
  induction cs with
  | nil => intro s h; simp [matchDollarNumAux] at h
  | cons c rest ih =>
    intro s h
    simp only [matchDollarNumAux] at h
    split at h
    · injection h with h2
      intro he
      have hd := congrArg String.data (h2.trans he)
      simp [emptyS] at hd
    · exact ih s h

theorem matchDollarNum_ne_empty {t s : String} (h : matchDollarNum t = some s) :
    s ≠ emptyS :=
  matchDollarNumAux_ne_empty t.toList s h

-- The two trailing branches of the price chain never set the sale flag.
theorem stageRest_isOnSale (origM saleM : Option String) (allPrices : List String)
    (h : ¬(origM.isSome = true ∧ saleM.isSome = true)) :
    (stageRest origM saleM allPrices).2.2 = false := by
  unfold stageRest
  cases saleM with
  | some s =>
    cases origM with
    | some o => exact absurd ⟨rfl, rfl⟩ h
    | none => rfl
  | none =>
    rcases allPrices with _ | ⟨a, _ | ⟨b, t⟩⟩
    · rfl
    · dsimp only
      split_ifs <;> rfl
    · rfl

-- When the price chain sets the sale flag, it always filled both price
-- fields with truthy strings.
theorem stage1_truthy (origM saleM : Option String) (allPrices : List String)
    (ho : ∀ x, origM = some x → x ≠ emptyS) (hs : ∀ x, saleM = some x → x ≠ emptyS)
    (h : (stage1 origM saleM allPrices).2.2 = true) :
    optTruthyStr (stage1 origM saleM allPrices).1 = true ∧
    optTruthyStr (stage1 origM saleM allPrices).2.1 = true := by
  unfold stage1 at h ⊢
  by_cases h1 : origM.isSome = true ∧ saleM.isSome = true
  · rw [if_pos h1] at h ⊢
    obtain ⟨ho1, hs1⟩ := h1
    obtain ⟨o, rfl⟩ := Option.isSome_iff_exists.mp ho1
    obtain ⟨s, rfl⟩ := Option.isSome_iff_exists.mp hs1
    constructor
    · simp [optTruthyStr, ho o rfl]
    · simp [optTruthyStr, hs s rfl]
  · rw [if_neg h1] at h ⊢
    rcases allPrices with _ | ⟨a, _ | ⟨b, t⟩⟩
    · dsimp only at h
      exact absurd (stageRest_isOnSale origM saleM [] h1) (by simp [h])
    · dsimp only at h
      exact absurd (stageRest_isOnSale origM saleM [a] h1) (by simp [h])
    · dsimp only at h ⊢
      by_cases hab : a ≠ emptyS ∧ b ≠ emptyS
      · rw [if_pos hab] at h ⊢
        simp only [stageTwoPrices] at h ⊢
        split_ifs at h ⊢ <;>
          simp_all [optTruthyStr]
      · rw [if_neg hab] at h ⊢
        exact absurd (stageRest_isOnSale origM saleM (a :: b :: t) h1) (by simp [h])

-- Exactly when the price chain sets the sale flag.
theorem stage1_isOnSale_iff (origM saleM : Option String) (allPrices : List String) :
    (stage1 origM saleM allPrices).2.2 = true ↔
      (origM.isSome = true ∧ saleM.isSome = true) ∨
      (∃ a b rest2, allPrices = a :: b :: rest2 ∧ a ≠ emptyS ∧ b ≠ emptyS ∧
        (jsLtQ (parsePriceNum a) (parsePriceNum b) = true ∨
         jsLtQ (parsePriceNum b) (parsePriceNum a) = true)) := by
  unfold stage1
  by_cases h1 : origM.isSome = true ∧ saleM.isSome = true
  · rw [if_pos h1]
    simp [h1]
  · rw [if_neg h1]
    rcases allPrices with _ | ⟨a, _ | ⟨b, t⟩⟩
    · dsimp only
      simp [stageRest_isOnSale origM saleM [] h1, h1]
    · dsimp only
      simp [stageRest_isOnSale origM saleM [a] h1, h1]
    · dsimp only
      by_cases hab : a ≠ emptyS ∧ b ≠ emptyS
      · rw [if_pos hab]
        simp only [stageTwoPrices]
        constructor
        · intro h
          split_ifs at h with hlt1 hlt2
          · exact Or.inr ⟨a, b, t, rfl, hab.1, hab.2, Or.inl hlt1⟩
          · exact Or.inr ⟨a, b, t, rfl, hab.1, hab.2, Or.inr hlt2⟩
        · rintro (hc | ⟨a2, b2, t2, heq, _, _, hlt⟩)
          · exact absurd hc h1
          · obtain ⟨rfl, rfl, rfl⟩ : a2 = a ∧ b2 = b ∧ t2 = t := by
              simpa using heq.symm
            rcases hlt with hlt | hlt
            · rw [if_pos hlt]
            · split_ifs with hx1 <;> rfl
      · rw [if_neg hab]
        rw [stageRest_isOnSale origM saleM (a :: b :: t) h1]
        constructor
        · intro h; cases h
        · rintro (hc | ⟨a2, b2, t2, heq, ha2, hb2, _⟩)
          · exact absurd hc h1
          · obtain ⟨rfl, rfl, rfl⟩ : a2 = a ∧ b2 = b ∧ t2 = t := by
              simpa using heq.symm
            exact absurd ⟨ha2, hb2⟩ hab

-- Exactly when the discount stage leaves or switches the sale flag on,
-- given that a set flag comes with truthy price fields.
theorem discountStage_isOnSale_iff (retail0 sale0 : Option String) (onSale0 : Bool)
    (dm : Option String)
    (h : onSale0 = true → optTruthyStr retail0 = true ∧ optTruthyStr sale0 = true) :
    (discountStage retail0 sale0 onSale0 dm).isOnSale = true ↔
      (onSale0 = true ∨ ∃ d, dm = some d ∧ 0 < digitsToNat d.toList) := by
  cases onSale0 with
  | true =>
    have ht : (discountStage retail0 sale0 true dm).isOnSale = true := by
      obtain ⟨h1, h2⟩ := h rfl
      unfold discountStage
      rw [if_pos (by rw [h1, h2]; rfl)]
      split
      · split_ifs <;> rfl
      · rfl
    simp [ht]
  | false =>
    unfold discountStage
    rw [if_neg (by simp)]
    cases dm with
    | some d => simp
    | none => simp

/-- C1 counterexample: for the raw capture {productCode:"10300",
price:{centAmount:24999}, listPrice:{formattedAmount:"$329.99"}}, the
normalizer does NOT produce a record with isOnSale = true and
discountPercentage = 24: the API-path record object carries no such
keys at all (they exist only in the product-page variant's record). -/
theorem c1_counterexample : ¬ claimC1 := by
  unfold claimC1
  decide

/-- C1 amended: for that raw capture the normalizer yields price
"$249.99" (centAmount/100, currency-formatted) and originalPrice
"$329.99" (the list price string), and the emitted record has no
isOnSale key and no discountPercentage key. -/
theorem c1_amended :
    jfieldC1 priceK = some (JVal.s sale249S) ∧
    jfieldC1 originalPriceK = some (JVal.s retail329S) ∧
    jfieldC1 isOnSaleK = none ∧
    jfieldC1 discountPercentageK = none := by
  unfold jfieldC1
  decide

/-- C2 (code bug): the capture store is a module-level map that the
CATALOG handler never clears, so a product captured during one catalog
visit is still present in the store handed to the next visit: after a
first visit that intercepted product "10300" and a second visit that
intercepted nothing, the second visit's store still contains it. -/
theorem c2_store_persists_across_visits :
    storeLookup code10300S (visitCaptures (visitCaptures [] [p10300]) []) =
      some p10300 ∧
    visitCaptures (visitCaptures [] [p10300]) [] ≠ [] := by
  constructor
  · decide
  · decide

/-- C3: the capture store is first-seen-wins.  Inserting a raw record
whose identifier is already a key leaves the store (hence the stored
value for that key) unchanged, and insertion preserves key
distinctness, so the store never holds two entries under one key. -/
theorem c3_first_seen_wins :
    (∀ (store : List (String × ApiProduct)) (p : ApiProduct),
      (storeLookup (jsIdOf p) store).isSome = true → insertCaptured store p = store) ∧
    (∀ (store : List (String × ApiProduct)) (p : ApiProduct),
      (store.map Prod.fst).Nodup → ((insertCaptured store p).map Prod.fst).Nodup) := by
  constructor
  · intro store p h
    unfold insertCaptured
    rw [if_neg]
    rintro ⟨-, h2⟩
    rw [h2] at h
    simp at h
  · intro store p hnd
    simp only [insertCaptured]
    split_ifs with hc
    · obtain ⟨hk, hnone⟩ := hc
      have hmem : jsIdOf p ∉ store.map Prod.fst := by
        have hall := (storeLookup_eq_none_iff _ _).mp hnone
        intro hm
        obtain ⟨kv, hkv, hfst⟩ := List.mem_map.mp hm
        exact hall kv hkv hfst
      rw [List.map_append]
      rw [List.nodup_append]
      refine ⟨hnd, by simp, ?_⟩
      intro x hx
      simp only [List.map_cons, List.map_nil, List.mem_singleton]
      intro hx2
      exact hmem (hx2 ▸ hx)
    · exact hnd

/-- C3 witness: with "10300" already stored, inserting a second raw
record that carries the same identifier through its id field changes
nothing, and key distinctness is preserved. -/
theorem c3_first_seen_wins_witness :
    insertCaptured [(code10300S, p10300)] p10300b = [(code10300S, p10300)] ∧
    ((insertCaptured [(code10300S, p10300)] p10300b).map Prod.fst).Nodup :=
  ⟨c3_first_seen_wins.1 [(code10300S, p10300)] p10300b (by decide),
   c3_first_seen_wins.2 [(code10300S, p10300)] p10300b (by decide)⟩

/-- C4 counterexample: the part_001 scroll controller has no hard
iteration ceiling; on a count stream that keeps increasing forever
(with no product cap) it never terminates, so its iteration count is
not bounded. -/
theorem c4_counterexample : ¬ scrollTerminates strictStream 0 := by
  rintro ⟨fuel, r, hr⟩
  rw [scrollLoop1_strict_none fuel 0 0 (le_refl 0)] at hr
  cases hr

/-- C4 amended: the routes.ts controller is bounded — for every count
stream, click stream and product cap it exits within its 500-scroll
ceiling; the part_001 controller terminates only via the max target or
the 5-reading stall, as in the spec's stall scenario, where counts
stuck at 10 end the loop after the 5th unchanged reading (6 readings
in all). -/
theorem c4_amended :
    (∀ (counts : Nat → Nat) (clicks : Nat → Bool) (maxProducts : Nat),
      ∃ r, scrollLoop2 counts clicks maxProducts 500 0 0 0 = some r ∧ r ≤ 500) ∧
    scrollLoop1 tenStream 0 20 0 0 0 = some 6 := by
  constructor
  · intro counts clicks m
    have h1 := scrollLoop2_isSome counts clicks m 500 0 0 0 (by omega)
    obtain ⟨r, hr⟩ := Option.isSome_iff_exists.mp h1
    exact ⟨r, hr, scrollLoop2_le counts clicks m 500 0 0 0 r (by omega) hr⟩
  · decide

/-- C5 counterexample: when the dedicated sale-price and original-price
elements both match but carry the same amount ($10.00), the PRODUCT
handler sets isOnSale = true although no discount percentage is
recorded and no strictly lower current price was identified, so the
claimed iff fails. -/
theorem c5_counterexample :
    ¬ saleIffStrictlyLower (computePriceFields ten00S ten00S emptyS emptyS) := by
  have hf : computePriceFields ten00S ten00S emptyS emptyS =
      ⟨some ten00S, some ten00S, true, none⟩ := by decide
  intro h
  unfold saleIffStrictlyLower at h
  rw [hf] at h
  have h1 := h.mp rfl
  rcases h1 with hd | ⟨r, s, hr, hs, hlt⟩
  · simp at hd
  · have hr2 : some ten00S = some r := hr
    have hs2 : some ten00S = some s := hs
    injection hr2 with hr3
    injection hs2 with hs3
    rw [← hr3, ← hs3] at hlt
    exact absurd hlt (by decide)

/-- C5 amended: isOnSale is true iff both a dedicated original-price
and sale-price element yielded a price token (regardless of their
relative amounts), or the main price display yielded two leading truthy
price tokens whose parsed values differ, or — failing both — a
discount marker with a positive integer was found; in particular two
equal prices in the main price display alone leave isOnSale false. -/
theorem c5_amended (saleText origText mainText discountText : String) :
    (computePriceFields saleText origText mainText discountText).isOnSale = true ↔
      ((matchDollarNum origText).isSome = true ∧ (matchDollarNum saleText).isSome = true) ∨
      (∃ a b rest2, matchAllDollarNums mainText = a :: b :: rest2 ∧
        a ≠ emptyS ∧ b ≠ emptyS ∧
        (jsLtQ (parsePriceNum a) (parsePriceNum b) = true ∨
         jsLtQ (parsePriceNum b) (parsePriceNum a) = true)) ∨
      (∃ d, jsOrOpt (firstDigitRun discountText) (matchMinusDigitsPercent mainText) =
          some d ∧ 0 < digitsToNat d.toList) := by
  simp only [computePriceFields]
  rw [discountStage_isOnSale_iff _ _ _ _
    (stage1_truthy _ _ _ (fun x hx => matchDollarNum_ne_empty hx)
      (fun x hx => matchDollarNum_ne_empty hx))]
  rw [stage1_isOnSale_iff]
  rw [or_assoc]

/-- C6 counterexample: a raw capture with a valid identifier and
centAmount 0 does not get price "$0.00"; centAmount 0 is falsy in the
source's conditional, so the price resolves to null. -/
theorem c6_counterexample :
    ¬ claimC6atZero ∧
    (parseApiProduct zeroCentProduct legoBaseS nowS).map LegoProduct.price =
      some none := by
  constructor
  · unfold claimC6atZero
    decide
  · decide

/-- C6 amended: for every raw capture with a valid identifier whose
price object carries no truthy formatted string and a positive
centAmount c, the normalizer yields the price string
"$" ++ the two-decimal rendering of c/100. -/
theorem c6_amended (p : ApiProduct) (pr : PriceInfo) (c : Int) (baseUrl now : String)
    (hid : jsIdOf p ≠ emptyS) (hpr : p.price = some pr)
    (hfa : truthyStr pr.formattedAmount = none) (hfv : truthyStr pr.formattedValue = none)
    (hc : pr.centAmount = some c) (hpos : 0 < c) :
    (parseApiProduct p baseUrl now).map LegoProduct.price =
      some (some (dollarS ++ centAmountFmt c)) := by
  have hprice : priceOf p = some (dollarS ++ centAmountFmt c) := by
    simp only [priceOf, hpr, hfa, hfv, hc]
    rw [if_pos (by omega)]
  simp only [parseApiProduct]
  rw [if_neg hid]
  simp [hprice]

/-- C6 witness: the scenario capture (centAmount 24999) has a valid
identifier and a positive cent amount, and its price renders as
"$249.99". -/
theorem c6_amended_witness :
    jsIdOf c1Input ≠ emptyS ∧ (0 : Int) < 24999 ∧
    (parseApiProduct c1Input legoBaseS nowS).map LegoProduct.price =
      some (some (dollarS ++ centAmountFmt 24999)) :=
  ⟨by decide, by decide,
   c6_amended c1Input ⟨none, none, some 24999⟩ 24999 legoBaseS nowS
     (by decide) rfl rfl rfl rfl (by decide)⟩

/-- C7: the DOM fallback runs iff the capture store is empty when the
controller finishes.  Every stored entry was keyed by its own truthy
identifier, so its conversion succeeds and a non-empty store always
yields at least one API-path record, which suppresses the fallback. -/
theorem c7_dom_fallback_iff_empty (baseUrl now : String) (maxProducts : Nat)
    (store : List (String × ApiProduct)) (cards : List DomCard)
    (hwf : ∀ kv ∈ store, kv.1 = jsIdOf kv.2 ∧ kv.1 ≠ emptyS) :
    (catalogProducts baseUrl now maxProducts store cards).2 = true ↔ store = [] := by
  cases store with
  | nil => simp [catalogProducts]
  | cons kv rest =>
    have hkey : jsIdOf kv.2 ≠ emptyS := by
      obtain ⟨h1, h2⟩ := hwf kv (by simp)
      exact h1 ▸ h2
    obtain ⟨rec, hrec⟩ : ∃ rec, parseApiProduct kv.2 baseUrl now = some rec := by
      cases hp : parseApiProduct kv.2 baseUrl now with
      | some rec => exact ⟨rec, rfl⟩
      | none => exact absurd ((parseApiProduct_eq_none_iff _ _ _).mp hp) hkey
    have hpos := apiParseLoop_pos baseUrl now maxProducts kv.2 (rest.map Prod.snd) rec hrec
    simp only [catalogProducts, List.map_cons]
    rw [if_pos (by simp : 0 < (kv :: rest).length)]
    rw [if_neg (by omega : ¬ (apiParseLoop baseUrl now maxProducts []
      (kv.2 :: rest.map Prod.snd)).length = 0)]
    simp

/-- C7 witness: with "10300" in the store, the fallback flag is false
(the iff holds at a nonempty store). -/
theorem c7_dom_fallback_iff_empty_witness :
    (catalogProducts legoBaseS nowS 0 [(code10300S, p10300)] []).2 = true ↔
      ([(code10300S, p10300)] : List (String × ApiProduct)) = [] :=
  c7_dom_fallback_iff_empty legoBaseS nowS 0 [(code10300S, p10300)] [] (by decide)

/-- C8 counterexample: in the enqueue variant, a catalog visit whose
product selector never appears (zero products found) saves exactly one
diagnostic screenshot and no markup blob, so "exactly one markup blob"
fails for that variant. -/
theorem c8_counterexample :
    ¬ claimC8timeout ∧ catalogVisitV2 false [] = ⟨1, 0, []⟩ := by
  constructor
  · unfold claimC8timeout
    decide
  · decide

/-- C8 amended: in the API-capture variant a zero-product catalog visit
hands over exactly one diagnostic screenshot and one markup blob and
emits no records; the enqueue variant's selector-timeout path saves
exactly one screenshot and no markup blob (and emits nothing). -/
theorem c8_amended (products : List LegoProduct) (h : products = []) :
    catalogEffects products = ⟨1, 1, []⟩ ∧ catalogVisitV2 false [] = ⟨1, 0, []⟩ := by
  subst h
  exact ⟨rfl, rfl⟩

/-- C8 witness: the empty product list. -/
theorem c8_amended_witness :
    catalogEffects [] = ⟨1, 1, []⟩ ∧ catalogVisitV2 false [] = ⟨1, 0, []⟩ :=
  c8_amended [] rfl

/-- C9: with a strictly positive maxProducts, a catalog visit emits at
most maxProducts records — the API-capture conversion loop breaks at
the limit, and the DOM fallback iterates at most
min(maxProducts, card count) cards. -/
theorem c9_max_products_bound (baseUrl now : String) (maxProducts : Nat)
    (store : List (String × ApiProduct)) (cards : List DomCard)
    (h : 0 < maxProducts) :
    ((catalogProducts baseUrl now maxProducts store cards).1).length ≤ maxProducts ∧
    (extractProductsFromDom now cards maxProducts).length ≤
      min maxProducts cards.length := by
  have hdom : (extractProductsFromDom now cards maxProducts).length ≤
      min maxProducts cards.length := by
    simp only [extractProductsFromDom]
    rw [if_pos h]
    calc ((cards.take (min maxProducts cards.length)).filterMap
          (extractDomProduct now)).length
        ≤ (cards.take (min maxProducts cards.length)).length :=
          List.length_filterMap_le _ _
      _ ≤ min maxProducts cards.length := by
          rw [List.length_take]
          omega
  refine ⟨?_, hdom⟩
  cases store with
  | nil =>
    simp only [catalogProducts]
    rw [if_neg (by simp : ¬ 0 < ([] : List (String × ApiProduct)).length)]
    rw [if_pos (by simp : ([] : List LegoProduct).length = 0)]
    exact le_trans hdom (min_le_left _ _)
  | cons kv rest =>
    simp only [catalogProducts]
    rw [if_pos (by simp : 0 < (kv :: rest).length)]
    have hle : (apiParseLoop baseUrl now maxProducts []
        ((kv :: rest).map Prod.snd)).length ≤ maxProducts :=
      apiParseLoop_length_le baseUrl now maxProducts h
        ((kv :: rest).map Prod.snd) [] (by simpa using h)
    by_cases hz : (apiParseLoop baseUrl now maxProducts []
        ((kv :: rest).map Prod.snd)).length = 0
    · rw [if_pos hz]
      exact le_trans hdom (min_le_left _ _)
    · rw [if_neg hz]
      exact hle

/-- C9 witness: cap 1, two stored captures, no cards — at most one
record is produced. -/
theorem c9_max_products_bound_witness :
    0 < 1 ∧
    ((catalogProducts legoBaseS nowS 1
      [(code10300S, p10300), (code99999S, p99999)] []).1).length ≤ 1 :=
  ⟨Nat.one_pos,
   (c9_max_products_bound legoBaseS nowS 1
     [(code10300S, p10300), (code99999S, p99999)] [] Nat.one_pos).1⟩

/-- C10: the normalizer returns null exactly when neither productCode
nor id yields a truthy string; consequently every record it returns —
in particular every record the API-capture path emits — has a
non-empty setNumber. -/
theorem c10_identifier_required (p : ApiProduct) (baseUrl now : String) :
    (parseApiProduct p baseUrl now = none ↔
      truthyStr p.productCode = none ∧ truthyStr p.id = none) ∧
    (∀ rec, parseApiProduct p baseUrl now = some rec → rec.setNumber ≠ emptyS) ∧
    (∀ (maxProducts : Nat) (captures : List ApiProduct) (rec : LegoProduct),
      rec ∈ apiParseLoop baseUrl now maxProducts [] captures →
        rec.setNumber ≠ emptyS) := by
  refine ⟨?_, ?_, ?_⟩
  · rw [parseApiProduct_eq_none_iff]
    exact jsIdOf_eq_empty_iff p
  · intro rec hr
    exact (parseApiProduct_some_setNumber hr).2
  · intro m captures rec hm
    rcases apiParseLoop_mem baseUrl now m captures [] rec hm with h1 | ⟨v, -, hv⟩
    · simp at h1
    · exact (parseApiProduct_some_setNumber hv).2

/-- C10 witness: the record the API path emits for p10300 has the
non-empty identifier "10300", and a capture with no identifier fields
parses to null. -/
theorem c10_identifier_required_witness :
    rec10300.setNumber ≠ emptyS ∧ parseApiProduct emptyApi legoBaseS nowS = none :=
  ⟨(c10_identifier_required p10300 legoBaseS nowS).2.2 0 [p10300] rec10300 (by decide),
   (c10_identifier_required emptyApi legoBaseS nowS).1.mpr ⟨rfl, rfl⟩⟩
